import Mathlib

/-!
SIAMotionPlanner: trajectory dispatch and plan evaluation.

A shallow embedding of `sia_7f_arm_train/include/motion_planner/motion_planner.h`.

* The ROS messages that `executeTrajectory` handles are records; a `float64` is kept as
  its 64-bit pattern, since the code only copies such values.
* The action client, the action server behind it and the ROS console are the
  environment.  A run is a list of `Event`s (the calls made, with their arguments and
  their outcomes); `Backend` is the oracle that decides each outcome from the history.
* `executeTrajectory` threads the history explicitly and returns its `bool`.
-/

namespace MotionPlanner

/-! ## Preprocessor constants -/

/-- The macro `MAX_PLAN_STEP` (`max_plan_steps_`). -/
def MAX_PLAN_STEP : Nat := 30

/-- The macro `MAX_CART_PLAN_STEP` (`max_cartesion_plan_steps_`). -/
def MAX_CART_PLAN_STEP : Nat := 200

/-! ## ROS message types -/

/-- A `float64`, by its bit pattern. -/
structure Float64 where
  bits : Nat
  deriving DecidableEq, Repr, Inhabited

/-- A `ros::Duration`: seconds and nanoseconds. -/
structure Duration where
  sec : Int
  nsec : Int
  deriving DecidableEq, Repr

instance : Inhabited Duration := ⟨⟨0, 0⟩⟩

/-- The value of `ros::Duration(s)` for a literal that is a whole number of seconds
    (`ros::Duration(2.0)`, `ros::Duration(1.0)`). -/
def Duration.fromSec (s : Int) : Duration := ⟨s, 0⟩

/-- A `ros::Time` stamp. -/
structure Time where
  sec : Nat
  nsec : Nat
  deriving DecidableEq, Repr

instance : Inhabited Time := ⟨⟨0, 0⟩⟩

/-- The message `std_msgs/Header`. -/
structure Header where
  seq : Nat
  stamp : Time
  frame_id : String
  deriving DecidableEq, Repr

instance : Inhabited Header := ⟨⟨0, default, ""⟩⟩

/-- The message `trajectory_msgs/JointTrajectoryPoint`. -/
structure JointTrajectoryPoint where
  positions : List Float64
  velocities : List Float64
  accelerations : List Float64
  effort : List Float64
  time_from_start : Duration
  deriving DecidableEq, Repr

/-- The message `trajectory_msgs/JointTrajectory`. -/
structure JointTrajectory where
  header : Header
  joint_names : List String
  points : List JointTrajectoryPoint
  deriving DecidableEq, Repr

instance : Inhabited JointTrajectory := ⟨⟨default, [], []⟩⟩

/-- The message `control_msgs/JointTolerance`. -/
structure JointTolerance where
  name : String
  position : Float64
  velocity : Float64
  acceleration : Float64
  deriving DecidableEq, Repr

/-- The message `control_msgs/FollowJointTrajectoryGoal`. -/
structure FollowJointTrajectoryGoal where
  trajectory : JointTrajectory
  path_tolerance : List JointTolerance
  goal_tolerance : List JointTolerance
  goal_time_tolerance : Duration
  deriving DecidableEq, Repr

/-- A default-constructed goal: empty trajectory, no tolerances, zero duration. -/
instance : Inhabited FollowJointTrajectoryGoal := ⟨⟨default, [], [], default⟩⟩

/-- The enumeration `actionlib::SimpleClientGoalState::StateEnum`. -/
inductive SimpleClientGoalState
  | PENDING
  | ACTIVE
  | RECALLED
  | REJECTED
  | PREEMPTED
  | ABORTED
  | SUCCEEDED
  | LOST
  deriving DecidableEq, Repr

/-! ## The environment -/

/-- What one run does to its environment, in order.  A client is named by a number;
    a call records its arguments and its outcome.  For `sendGoalAndWait`, the two
    optional timeouts are `none` when the call site does not pass them. -/
inductive Event
  | createClient (client : Nat) (name : String) (spin_thread : Bool)
  | waitForServer (client : Nat) (timeout : Duration) (reached : Bool)
  | sendGoalAndWait (client : Nat) (goal : FollowJointTrajectoryGoal)
      (execute_timeout : Option Duration) (preempt_timeout : Option Duration)
      (state : SimpleClientGoalState)
  | rosError (msg : String)
  | rosInfo (msg : String)
  | destroyClient (client : Nat)
  deriving DecidableEq, Repr

/-- The client an event is about, if any. -/
def Event.client? : Event → Option Nat
  | .createClient c _ _ => some c
  | .waitForServer c _ _ => some c
  | .sendGoalAndWait c _ _ _ _ => some c
  | .destroyClient c => some c
  | .rosError _ => none
  | .rosInfo _ => none

/-- The behaviour of the action server as seen through a client: whether it is reached
    within the wait, and the state that `sendGoalAndWait` hands back.  Either answer may
    depend on everything that happened before the call and on the call's arguments.
    The runs described are those in which each call returns. -/
structure Backend where
  waitForServer : List Event → Nat → Duration → Bool
  sendGoalAndWait : List Event → Nat → FollowJointTrajectoryGoal →
    Option Duration → Option Duration → SimpleClientGoalState

/-- A number that names no client of the history: one more than the largest in use. -/
def newClientId (log : List Event) : Nat :=
  (log.filterMap Event.client?).foldr max 0 + 1

/-! ## The class -/

/-- The class `SIAMotionPlanner`, by the data members that `executeTrajectory` reads
    (`moveit_traj_action_topic_`) or could have read for its waits (`timeout_`). -/
structure SIAMotionPlanner where
  timeout_ : Duration
  moveit_traj_action_topic_ : String
  deriving DecidableEq, Repr

/-- The method `SIAMotionPlanner::executeTrajectory`:
    construct a client on the stack, wait for the server for `ros::Duration(2.0)`,
    on failure log an error and return `false`; otherwise log, fill a fresh goal with
    the trajectory and `ros::Duration(1.0)`, call `sendGoalAndWait(goal)` and compare
    its state with `SUCCEEDED`.  The client is destroyed when the scope is left.
    Returns the `bool` and the extended history. -/
def SIAMotionPlanner.executeTrajectory (self : SIAMotionPlanner) (env : Backend)
    (log : List Event) (trajectory : JointTrajectory) : Bool × List Event :=
  let action_client := newClientId log
  let log := log ++ [Event.createClient action_client self.moveit_traj_action_topic_ true]
  let reached := env.waitForServer log action_client (Duration.fromSec 2)
  let log := log ++ [Event.waitForServer action_client (Duration.fromSec 2) reached]
  if !reached then
    let log := log ++ [Event.rosError "Cannot connect to action server"]
    (false, log ++ [Event.destroyClient action_client])
  else
    let log := log ++ [Event.rosInfo "actionlib initialized successfully"]
    let goal : FollowJointTrajectoryGoal := default
    let goal := { goal with trajectory := trajectory }
    let goal := { goal with goal_time_tolerance := Duration.fromSec 1 }
    let state := env.sendGoalAndWait log action_client goal none none
    let log := log ++ [Event.sendGoalAndWait action_client goal none none state]
    (state == SimpleClientGoalState.SUCCEEDED, log ++ [Event.destroyClient action_client])

open SIAMotionPlanner

/-- The events that a run added to the history `log`, given the history `log'` after it. -/
def emitted (log log' : List Event) : List Event := log'.drop log.length

/-- The events of one invocation of `executeTrajectory`. -/
def executeTrajectoryTrace (self : SIAMotionPlanner) (env : Backend) (log : List Event)
    (trajectory : JointTrajectory) : List Event :=
  emitted log (executeTrajectory self env log trajectory).2

/-! ## Reading a trace -/

/-- The clients constructed in a trace. -/
def clientsCreated (tr : List Event) : List Nat :=
  tr.filterMap fun e => match e with
    | .createClient c _ _ => some c
    | _ => none

/-- The connection attempts of a trace: client, bound of the wait, outcome. -/
def connectionAttempts (tr : List Event) : List (Nat × Duration × Bool) :=
  tr.filterMap fun e => match e with
    | .waitForServer c d r => some (c, d, r)
    | _ => none

/-- The goals handed to the backend in a trace, in order. -/
def goalsSent (tr : List Event) : List FollowJointTrajectoryGoal :=
  tr.filterMap fun e => match e with
    | .sendGoalAndWait _ g _ _ _ => some g
    | _ => none

/-- The timeouts passed along with each goal of a trace: execution, then preemption. -/
def timeoutsPassed (tr : List Event) : List (Option Duration × Option Duration) :=
  tr.filterMap fun e => match e with
    | .sendGoalAndWait _ _ x p _ => some (x, p)
    | _ => none

/-- The console messages of a trace, in order. -/
def consoleOutput (tr : List Event) : List Event :=
  tr.filter fun e => match e with
    | .rosError _ => true
    | .rosInfo _ => true
    | _ => false

/-- The goal that `executeTrajectory` builds from its argument. -/
def goalFor (trajectory : JointTrajectory) : FollowJointTrajectoryGoal :=
  { trajectory := trajectory, path_tolerance := [], goal_tolerance := [],
    goal_time_tolerance := Duration.fromSec 1 }

/-! ## Plan evaluation -/

/-- The arguments of the first overload of `cartesionPathPlanner`. -/
structure CartesianRequest where
  distance_x : Float64
  distance_y : Float64
  distance_z : Float64
  roll : Float64
  pitch : Float64
  yaw : Float64
  number_point : Int
  number_distance : Int
  deriving DecidableEq, Repr

/-- The two members of `SIAMotionPlanner` declared under "Evaluate the plan trajectory";
    both are of type `double`. -/
structure PlanStepLimits where
  max_plan_steps_ : ℚ
  max_cartesion_plan_steps_ : ℚ

/-- Modelled from the spec: the body of `init()` is not in the header, which declares it
    as initialising the variables; the comment on each macro names the member that the
    macro configures. -/
def SIAMotionPlanner.init : PlanStepLimits :=
  { max_plan_steps_ := (MAX_PLAN_STEP : ℚ),
    max_cartesion_plan_steps_ := (MAX_CART_PLAN_STEP : ℚ) }

/-- Modelled from the spec: the clamping of a requested point count is not in the
    header.  The spec: a count above the configured maximum is not an error, it is
    replaced by the maximum; any other count is kept. -/
def clampPointCount (maximum : ℚ) (requested : Int) : Int :=
  if maximum < (requested : ℚ) then ⌊maximum⌋ else requested

/-- The Cartesian point count of a request (`number_point`) after clamping. -/
def clampedCartesianPoints (limits : PlanStepLimits) (req : CartesianRequest) : Int :=
  clampPointCount limits.max_cartesion_plan_steps_ req.number_point

/-- The joint-space point count of a request (`number_distance`) after clamping. -/
def clampedJointPoints (limits : PlanStepLimits) (req : CartesianRequest) : Int :=
  clampPointCount limits.max_plan_steps_ req.number_distance

/-! ## Concrete inputs -/

/-- A planner object listening on a controller topic. -/
def samplePlanner : SIAMotionPlanner :=
  { timeout_ := Duration.fromSec 5, moveit_traj_action_topic_ := "follow_joint_trajectory" }

/-- A trajectory point with one joint position. -/
def samplePoint (b : Nat) : JointTrajectoryPoint :=
  { positions := [⟨b⟩], velocities := [], accelerations := [], effort := [],
    time_from_start := Duration.fromSec 1 }

/-- A trajectory of two points for one joint. -/
def sampleTrajectory : JointTrajectory :=
  { header := default, joint_names := ["sia_7f_arm_joint1"],
    points := [samplePoint 1, samplePoint 2] }

/-- A backend whose server is never reached. -/
def unreachableBackend : Backend :=
  { waitForServer := fun _ _ _ => false
    sendGoalAndWait := fun _ _ _ _ _ => SimpleClientGoalState.SUCCEEDED }

/-- A backend that is reached and ends every goal in the given state. -/
def backendEnding (s : SimpleClientGoalState) : Backend :=
  { waitForServer := fun _ _ _ => true
    sendGoalAndWait := fun _ _ _ _ _ => s }

/-- A straight-line request for `n` Cartesian points and `d` joint-space points. -/
def requestCounts (n d : Int) : CartesianRequest :=
  { distance_x := ⟨0⟩, distance_y := ⟨0⟩, distance_z := ⟨0⟩, roll := ⟨0⟩, pitch := ⟨0⟩,
    yaw := ⟨0⟩, number_point := n, number_distance := d }

/-- The trace of an invocation whose connection attempt fails. -/
def failedTrace (self : SIAMotionPlanner) (log : List Event) : List Event :=
  [Event.createClient (newClientId log) self.moveit_traj_action_topic_ true,
   Event.waitForServer (newClientId log) (Duration.fromSec 2) false,
   Event.rosError "Cannot connect to action server",
   Event.destroyClient (newClientId log)]

/-- The trace of an invocation whose goal ends in `state`. -/
def sentTrace (self : SIAMotionPlanner) (log : List Event) (trajectory : JointTrajectory)
    (state : SimpleClientGoalState) : List Event :=
  [Event.createClient (newClientId log) self.moveit_traj_action_topic_ true,
   Event.waitForServer (newClientId log) (Duration.fromSec 2) true,
   Event.rosInfo "actionlib initialized successfully",
   Event.sendGoalAndWait (newClientId log) (goalFor trajectory) none none state,
   Event.destroyClient (newClientId log)]

/-! ## Shape of a run -/

theorem le_foldr_max (l : List Nat) (x : Nat) (h : x ∈ l) : x ≤ l.foldr max 0 := by
  induction l with
  | nil => cases h
  | cons a t ih =>
    rw [List.foldr_cons]
    rcases List.mem_cons.mp h with rfl | h
    · exact le_max_left _ _
    · exact le_trans (ih h) (le_max_right _ _)

theorem newClientId_fresh (log : List Event) (e : Event) (he : e ∈ log) :
    e.client? ≠ some (newClientId log) := by
  intro hc
  have hm : newClientId log ∈ log.filterMap Event.client? :=
    List.mem_filterMap.mpr ⟨e, he, hc⟩
  have := le_foldr_max _ _ hm
  unfold newClientId at this
  omega

theorem executeTrajectory_shape (self : SIAMotionPlanner) (env : Backend) (log : List Event)
    (trajectory : JointTrajectory) :
    executeTrajectory self env log trajectory = (false, log ++ failedTrace self log) ∨
    ∃ state, executeTrajectory self env log trajectory =
      (state == SimpleClientGoalState.SUCCEEDED, log ++ sentTrace self log trajectory state) := by
  unfold executeTrajectory
  cases h : env.waitForServer
      (log ++ [Event.createClient (newClientId log) self.moveit_traj_action_topic_ true])
      (newClientId log) (Duration.fromSec 2)
  · left
    simp [h, failedTrace]
  · right
    refine ⟨env.sendGoalAndWait
      (log ++ [Event.createClient (newClientId log) self.moveit_traj_action_topic_ true] ++
        [Event.waitForServer (newClientId log) (Duration.fromSec 2) true] ++
        [Event.rosInfo "actionlib initialized successfully"])
      (newClientId log) (goalFor trajectory) none none, ?_⟩
    simp [h, sentTrace, goalFor, default]

theorem trace_shape (self : SIAMotionPlanner) (env : Backend) (log : List Event)
    (trajectory : JointTrajectory) :
    ((executeTrajectory self env log trajectory).1 = false ∧
      executeTrajectoryTrace self env log trajectory = failedTrace self log) ∨
    ∃ state, (executeTrajectory self env log trajectory).1 =
        (state == SimpleClientGoalState.SUCCEEDED) ∧
      executeTrajectoryTrace self env log trajectory = sentTrace self log trajectory state := by
  unfold executeTrajectoryTrace emitted
  rcases executeTrajectory_shape self env log trajectory with h | ⟨s, h⟩
  · left
    rw [h]
    exact ⟨rfl, List.drop_left _ _⟩
  · right
    refine ⟨s, ?_⟩
    rw [h]
    exact ⟨rfl, List.drop_left _ _⟩

theorem executeTrajectory_of_unreached (self : SIAMotionPlanner) (env : Backend)
    (log : List Event) (trajectory : JointTrajectory)
    (h : env.waitForServer
      (log ++ [Event.createClient (newClientId log) self.moveit_traj_action_topic_ true])
      (newClientId log) (Duration.fromSec 2) = false) :
    executeTrajectory self env log trajectory = (false, log ++ failedTrace self log) := by
  unfold executeTrajectory
  simp [h, failedTrace]

theorem executeTrajectory_of_reached (self : SIAMotionPlanner) (env : Backend)
    (log : List Event) (trajectory : JointTrajectory)
    (h : env.waitForServer
      (log ++ [Event.createClient (newClientId log) self.moveit_traj_action_topic_ true])
      (newClientId log) (Duration.fromSec 2) = true) :
    executeTrajectory self env log trajectory =
      (env.sendGoalAndWait
          (log ++ [Event.createClient (newClientId log) self.moveit_traj_action_topic_ true,
            Event.waitForServer (newClientId log) (Duration.fromSec 2) true,
            Event.rosInfo "actionlib initialized successfully"])
          (newClientId log) (goalFor trajectory) none none == SimpleClientGoalState.SUCCEEDED,
        log ++ sentTrace self log trajectory (env.sendGoalAndWait
          (log ++ [Event.createClient (newClientId log) self.moveit_traj_action_topic_ true,
            Event.waitForServer (newClientId log) (Duration.fromSec 2) true,
            Event.rosInfo "actionlib initialized successfully"])
          (newClientId log) (goalFor trajectory) none none)) := by
  unfold executeTrajectory
  simp [h, sentTrace, goalFor, default]

/-! ## Outcome of `executeTrajectory` -/

/-- C1: `executeTrajectory` returns `true` exactly when the backend answers the
    invocation's `waitForServer` with "reached" and answers its `sendGoalAndWait` with
    `SUCCEEDED`; the trace records exactly these two answers, and whenever the goal ended
    in any other state the result is `false`. -/
theorem executeTrajectory_true_iff_succeeded (self : SIAMotionPlanner) (env : Backend)
    (log : List Event) (trajectory : JointTrajectory) :
    ((executeTrajectory self env log trajectory).1 = true ↔
      env.waitForServer
        (log ++ [Event.createClient (newClientId log) self.moveit_traj_action_topic_ true])
        (newClientId log) (Duration.fromSec 2) = true ∧
      env.sendGoalAndWait
        (log ++ [Event.createClient (newClientId log) self.moveit_traj_action_topic_ true,
          Event.waitForServer (newClientId log) (Duration.fromSec 2) true,
          Event.rosInfo "actionlib initialized successfully"])
        (newClientId log)
        { trajectory := trajectory, path_tolerance := [], goal_tolerance := [],
          goal_time_tolerance := ⟨1, 0⟩ }
        none none = SimpleClientGoalState.SUCCEEDED) ∧
    ((executeTrajectory self env log trajectory).1 = true ↔
      (∃ c d, Event.waitForServer c d true ∈ executeTrajectoryTrace self env log trajectory) ∧
      (∃ c g x p, Event.sendGoalAndWait c g x p SimpleClientGoalState.SUCCEEDED ∈
        executeTrajectoryTrace self env log trajectory)) ∧
    Event.waitForServer (newClientId log) (Duration.fromSec 2)
        (env.waitForServer
          (log ++ [Event.createClient (newClientId log) self.moveit_traj_action_topic_ true])
          (newClientId log) (Duration.fromSec 2)) ∈
      executeTrajectoryTrace self env log trajectory ∧
    (∀ c g x p s, Event.sendGoalAndWait c g x p s ∈
        executeTrajectoryTrace self env log trajectory →
      s ≠ SimpleClientGoalState.SUCCEEDED →
      (executeTrajectory self env log trajectory).1 = false) := by
  cases h : env.waitForServer
      (log ++ [Event.createClient (newClientId log) self.moveit_traj_action_topic_ true])
      (newClientId log) (Duration.fromSec 2)
  · have e := executeTrajectory_of_unreached self env log trajectory h
    have t : executeTrajectoryTrace self env log trajectory = failedTrace self log := by
      unfold executeTrajectoryTrace emitted
      rw [e]
      exact List.drop_left _ _
    rw [t, e]
    simp [failedTrace]
  · have e := executeTrajectory_of_reached self env log trajectory h
    have t : executeTrajectoryTrace self env log trajectory =
        sentTrace self log trajectory (env.sendGoalAndWait
          (log ++ [Event.createClient (newClientId log) self.moveit_traj_action_topic_ true,
            Event.waitForServer (newClientId log) (Duration.fromSec 2) true,
            Event.rosInfo "actionlib initialized successfully"])
          (newClientId log) (goalFor trajectory) none none) := by
      unfold executeTrajectoryTrace emitted
      rw [e]
      exact List.drop_left _ _
    rw [t, e]
    refine ⟨?_, ?_, ?_, ?_⟩
    · simp [goalFor, Duration.fromSec]
    · constructor
      · intro hs
        have hs' := of_decide_eq_true hs
        exact ⟨⟨newClientId log, Duration.fromSec 2, by simp [sentTrace]⟩,
          ⟨newClientId log, goalFor trajectory, none, none, by simp [sentTrace, hs']⟩⟩
      · rintro ⟨-, c, g, x, p, hm⟩
        simp [sentTrace] at hm
        simp [hm.2.2.2.2]
    · simp [sentTrace]
    · intro c g x p s' hm hne
      simp [sentTrace] at hm
      rw [← hm.2.2.2.2]
      simpa using hne

/-- C2: when the connection attempt of an invocation fails, `executeTrajectory` returns
    `false` and that invocation hands no goal to the backend. -/
theorem executeTrajectory_unreachable_sends_nothing (self : SIAMotionPlanner) (env : Backend)
    (log : List Event) (trajectory : JointTrajectory)
    (h : ∃ c d, Event.waitForServer c d false ∈ executeTrajectoryTrace self env log trajectory) :
    (executeTrajectory self env log trajectory).1 = false ∧
    goalsSent (executeTrajectoryTrace self env log trajectory) = [] ∧
    ∀ c g x p s, Event.sendGoalAndWait c g x p s ∉
      executeTrajectoryTrace self env log trajectory := by
  rcases trace_shape self env log trajectory with ⟨h1, h2⟩ | ⟨s, h1, h2⟩
  · rw [h1, h2]
    simp [failedTrace, goalsSent]
  · rw [h2] at h
    obtain ⟨c, d, hm⟩ := h
    simp [sentTrace] at hm

/-- C3: when the backend answers the invocation's `waitForServer` with "reached",
    `executeTrajectory` hands the backend exactly one goal; the trajectory of that goal
    is the argument, with the same points in the same order, and the one
    `sendGoalAndWait` of the trace carries it. -/
theorem executeTrajectory_sends_whole_trajectory (self : SIAMotionPlanner) (env : Backend)
    (log : List Event) (trajectory : JointTrajectory)
    (h : env.waitForServer
      (log ++ [Event.createClient (newClientId log) self.moveit_traj_action_topic_ true])
      (newClientId log) (Duration.fromSec 2) = true) :
    (∃ g, goalsSent (executeTrajectoryTrace self env log trajectory) = [g] ∧
      g.trajectory = trajectory ∧ g.trajectory.points = trajectory.points) ∧
    (goalsSent (executeTrajectoryTrace self env log trajectory)).map
      FollowJointTrajectoryGoal.trajectory = [trajectory] ∧
    (goalsSent (executeTrajectoryTrace self env log trajectory)).map
      (fun g => g.trajectory.points) = [trajectory.points] ∧
    (∃ s, Event.sendGoalAndWait (newClientId log)
        { trajectory := trajectory, path_tolerance := [], goal_tolerance := [],
          goal_time_tolerance := ⟨1, 0⟩ } none none s ∈
      executeTrajectoryTrace self env log trajectory) := by
  have e := executeTrajectory_of_reached self env log trajectory h
  have t : executeTrajectoryTrace self env log trajectory =
      sentTrace self log trajectory (env.sendGoalAndWait
        (log ++ [Event.createClient (newClientId log) self.moveit_traj_action_topic_ true,
          Event.waitForServer (newClientId log) (Duration.fromSec 2) true,
          Event.rosInfo "actionlib initialized successfully"])
        (newClientId log) (goalFor trajectory) none none) := by
    unfold executeTrajectoryTrace emitted
    rw [e]
    exact List.drop_left _ _
  rw [t]
  simp [sentTrace, goalsSent, goalFor, Duration.fromSec]

/-- C4: every invocation constructs exactly one client, one that no event of the
    history is about, and makes exactly one connection attempt, on that client; this
    holds after any history, so also for the invocation that follows a failed one,
    whose client differs from the earlier one. -/
theorem executeTrajectory_one_fresh_attempt (self : SIAMotionPlanner) (env : Backend)
    (log : List Event) (trajectory again : JointTrajectory) :
    clientsCreated (executeTrajectoryTrace self env log trajectory) = [newClientId log] ∧
    (∃ r, connectionAttempts (executeTrajectoryTrace self env log trajectory) =
      [(newClientId log, Duration.fromSec 2, r)]) ∧
    (∀ e ∈ log, e.client? ≠ some (newClientId log)) ∧
    ((executeTrajectory self env log trajectory).1 = false →
      ∃ r, connectionAttempts (executeTrajectoryTrace self env
          (executeTrajectory self env log trajectory).2 again) =
        [(newClientId (executeTrajectory self env log trajectory).2, Duration.fromSec 2, r)] ∧
        newClientId (executeTrajectory self env log trajectory).2 ≠ newClientId log) := by
  refine ⟨?_, ?_, newClientId_fresh log, ?_⟩
  · rcases trace_shape self env log trajectory with ⟨_, h2⟩ | ⟨s, _, h2⟩ <;>
      rw [h2] <;> simp [failedTrace, sentTrace, clientsCreated]
  · rcases trace_shape self env log trajectory with ⟨_, h2⟩ | ⟨s, _, h2⟩ <;>
      rw [h2] <;> simp [failedTrace, sentTrace, connectionAttempts]
  · intro _
    have hne : newClientId (executeTrajectory self env log trajectory).2 ≠ newClientId log := by
      intro heq
      have hmem : Event.createClient (newClientId log) self.moveit_traj_action_topic_ true ∈
          (executeTrajectory self env log trajectory).2 := by
        rcases executeTrajectory_shape self env log trajectory with h | ⟨s, h⟩ <;>
          rw [h] <;> simp [failedTrace, sentTrace]
      exact newClientId_fresh _ _ hmem (by rw [heq]; rfl)
    rcases trace_shape self env (executeTrajectory self env log trajectory).2 again with
      ⟨_, h2⟩ | ⟨s, _, h2⟩
    · exact ⟨false, by rw [h2]; simp [failedTrace, connectionAttempts], hne⟩
    · exact ⟨true, by rw [h2]; simp [sentTrace, connectionAttempts], hne⟩

/-- C5, against the claim: a goal that ends `ABORTED` and a goal that ends `PREEMPTED`
    give the same returned value and the same console messages. -/
theorem executeTrajectory_aborted_like_preempted :
    Event.sendGoalAndWait 1 (goalFor sampleTrajectory) none none SimpleClientGoalState.ABORTED ∈
      executeTrajectoryTrace samplePlanner (backendEnding SimpleClientGoalState.ABORTED) []
        sampleTrajectory ∧
    Event.sendGoalAndWait 1 (goalFor sampleTrajectory) none none SimpleClientGoalState.PREEMPTED ∈
      executeTrajectoryTrace samplePlanner (backendEnding SimpleClientGoalState.PREEMPTED) []
        sampleTrajectory ∧
    (executeTrajectory samplePlanner (backendEnding SimpleClientGoalState.ABORTED) []
        sampleTrajectory).1 =
      (executeTrajectory samplePlanner (backendEnding SimpleClientGoalState.PREEMPTED) []
        sampleTrajectory).1 ∧
    consoleOutput (executeTrajectoryTrace samplePlanner
        (backendEnding SimpleClientGoalState.ABORTED) [] sampleTrajectory) =
      consoleOutput (executeTrajectoryTrace samplePlanner
        (backendEnding SimpleClientGoalState.PREEMPTED) [] sampleTrajectory) := by
  decide

/-- C5, amended: whenever the goal ends in a state other than `SUCCEEDED`,
    `executeTrajectory` returns `false`, and two such runs return the same value and
    print the same messages, whichever the two states are. -/
theorem executeTrajectory_failure_state_not_reported
    (self₁ self₂ : SIAMotionPlanner) (env₁ env₂ : Backend) (log₁ log₂ : List Event)
    (trajectory₁ trajectory₂ : JointTrajectory) (s₁ s₂ : SimpleClientGoalState)
    (h₁ : ∃ c g x p, Event.sendGoalAndWait c g x p s₁ ∈
      executeTrajectoryTrace self₁ env₁ log₁ trajectory₁)
    (h₂ : ∃ c g x p, Event.sendGoalAndWait c g x p s₂ ∈
      executeTrajectoryTrace self₂ env₂ log₂ trajectory₂)
    (hs₁ : s₁ ≠ SimpleClientGoalState.SUCCEEDED) (hs₂ : s₂ ≠ SimpleClientGoalState.SUCCEEDED) :
    (executeTrajectory self₁ env₁ log₁ trajectory₁).1 = false ∧
    (executeTrajectory self₂ env₂ log₂ trajectory₂).1 = false ∧
    consoleOutput (executeTrajectoryTrace self₁ env₁ log₁ trajectory₁) =
      consoleOutput (executeTrajectoryTrace self₂ env₂ log₂ trajectory₂) := by
  obtain ⟨c₁, g₁, x₁, p₁, m₁⟩ := h₁
  obtain ⟨c₂, g₂, x₂, p₂, m₂⟩ := h₂
  rcases trace_shape self₁ env₁ log₁ trajectory₁ with ⟨_, t₁⟩ | ⟨u₁, r₁, t₁⟩
  · rw [t₁] at m₁
    simp [failedTrace] at m₁
  rcases trace_shape self₂ env₂ log₂ trajectory₂ with ⟨_, t₂⟩ | ⟨u₂, r₂, t₂⟩
  · rw [t₂] at m₂
    simp [failedTrace] at m₂
  rw [t₁] at m₁
  rw [t₂] at m₂
  simp [sentTrace] at m₁ m₂
  obtain ⟨-, -, -, -, e₁⟩ := m₁
  obtain ⟨-, -, -, -, e₂⟩ := m₂
  subst e₁ e₂
  rw [r₁, r₂, t₁, t₂]
  refine ⟨by simpa using hs₁, by simpa using hs₂, ?_⟩
  simp [sentTrace, consoleOutput]

/-- C6, against the claim: a run that never reaches the server and a run whose goal is
    sent and ends `ABORTED` return the same value. -/
theorem executeTrajectory_unavailable_like_failed :
    Event.waitForServer 1 (Duration.fromSec 2) false ∈
      executeTrajectoryTrace samplePlanner unreachableBackend [] sampleTrajectory ∧
    goalsSent (executeTrajectoryTrace samplePlanner unreachableBackend [] sampleTrajectory) = [] ∧
    Event.sendGoalAndWait 1 (goalFor sampleTrajectory) none none SimpleClientGoalState.ABORTED ∈
      executeTrajectoryTrace samplePlanner (backendEnding SimpleClientGoalState.ABORTED) []
        sampleTrajectory ∧
    (executeTrajectory samplePlanner unreachableBackend [] sampleTrajectory).1 =
      (executeTrajectory samplePlanner (backendEnding SimpleClientGoalState.ABORTED) []
        sampleTrajectory).1 := by
  decide

/-- C6, amended: a run whose connection attempt fails and a run whose goal ends in a
    state other than `SUCCEEDED` both return `false`; they differ in what reaches the
    outside: the first sends no goal and prints the error "Cannot connect to action
    server", the second sends its goal and prints the info line. -/
theorem executeTrajectory_failures_share_value
    (self₁ self₂ : SIAMotionPlanner) (env₁ env₂ : Backend) (log₁ log₂ : List Event)
    (trajectory₁ trajectory₂ : JointTrajectory) (s : SimpleClientGoalState)
    (h₁ : ∃ c d, Event.waitForServer c d false ∈
      executeTrajectoryTrace self₁ env₁ log₁ trajectory₁)
    (h₂ : ∃ c g x p, Event.sendGoalAndWait c g x p s ∈
      executeTrajectoryTrace self₂ env₂ log₂ trajectory₂)
    (hs : s ≠ SimpleClientGoalState.SUCCEEDED) :
    (executeTrajectory self₁ env₁ log₁ trajectory₁).1 = false ∧
    (executeTrajectory self₂ env₂ log₂ trajectory₂).1 = false ∧
    goalsSent (executeTrajectoryTrace self₁ env₁ log₁ trajectory₁) = [] ∧
    (goalsSent (executeTrajectoryTrace self₂ env₂ log₂ trajectory₂)).length = 1 ∧
    consoleOutput (executeTrajectoryTrace self₁ env₁ log₁ trajectory₁) =
      [Event.rosError "Cannot connect to action server"] ∧
    consoleOutput (executeTrajectoryTrace self₂ env₂ log₂ trajectory₂) =
      [Event.rosInfo "actionlib initialized successfully"] := by
  obtain ⟨c₁, d₁, m₁⟩ := h₁
  obtain ⟨c₂, g₂, x₂, p₂, m₂⟩ := h₂
  rcases trace_shape self₁ env₁ log₁ trajectory₁ with ⟨r₁, t₁⟩ | ⟨u₁, _, t₁⟩
  swap
  · rw [t₁] at m₁
    simp [sentTrace] at m₁
  rcases trace_shape self₂ env₂ log₂ trajectory₂ with ⟨_, t₂⟩ | ⟨u₂, r₂, t₂⟩
  · rw [t₂] at m₂
    simp [failedTrace] at m₂
  rw [t₂] at m₂
  simp [sentTrace] at m₂
  obtain ⟨-, -, -, -, e₂⟩ := m₂
  subst e₂
  rw [r₁, r₂, t₁, t₂]
  refine ⟨rfl, by simpa using hs, ?_⟩
  simp [failedTrace, sentTrace, consoleOutput, goalsSent]

/-- C7, against the claim: on a backend that is reached, the goal goes out with no
    execution timeout at all; no `sendGoalAndWait` of the run carries one. -/
theorem executeTrajectory_passes_no_execute_timeout :
    timeoutsPassed (executeTrajectoryTrace samplePlanner
      (backendEnding SimpleClientGoalState.SUCCEEDED) [] sampleTrajectory) = [(none, none)] ∧
    ¬ ∃ d p, (some d, p) ∈ timeoutsPassed (executeTrajectoryTrace samplePlanner
      (backendEnding SimpleClientGoalState.SUCCEEDED) [] sampleTrajectory) := by
  constructor
  · decide
  · rintro ⟨d, p, h⟩
    have e : timeoutsPassed (executeTrajectoryTrace samplePlanner
      (backendEnding SimpleClientGoalState.SUCCEEDED) [] sampleTrajectory) = [(none, none)] := by
      decide
    rw [e] at h
    simp at h

/-- C7, amended: `executeTrajectory` calls `sendGoalAndWait` with the goal alone, so
    with neither an execution timeout nor a preemption timeout; the one duration that
    goes with the goal is its `goal_time_tolerance` of one second.  When the server is
    reached there is exactly one such call. -/
theorem executeTrajectory_wait_left_to_backend (self : SIAMotionPlanner) (env : Backend)
    (log : List Event) (trajectory : JointTrajectory) :
    (∀ c g x p s, Event.sendGoalAndWait c g x p s ∈
        executeTrajectoryTrace self env log trajectory →
      x = none ∧ p = none ∧ g.goal_time_tolerance = ⟨1, 0⟩) ∧
    ((∃ c d, Event.waitForServer c d true ∈ executeTrajectoryTrace self env log trajectory) →
      timeoutsPassed (executeTrajectoryTrace self env log trajectory) = [(none, none)]) := by
  rcases trace_shape self env log trajectory with ⟨_, h2⟩ | ⟨s, _, h2⟩
  · rw [h2]
    simp [failedTrace]
  · rw [h2]
    constructor
    · intro c g x p s' hm
      simp [sentTrace] at hm
      obtain ⟨-, hg, hx, hp, -⟩ := hm
      subst hg hx hp
      exact ⟨rfl, rfl, rfl⟩
    · intro _
      simp [sentTrace, timeoutsPassed]

/-- C10: whatever the trajectory and whatever `timeout_` holds, the one connection
    attempt of an invocation waits for two seconds and every goal sent carries a
    goal-time tolerance of one second; changing `timeout_` changes nothing of the run. -/
theorem executeTrajectory_fixed_durations (self : SIAMotionPlanner) (env : Backend)
    (log : List Event) (trajectory : JointTrajectory) (t : Duration) :
    (connectionAttempts (executeTrajectoryTrace self env log trajectory)).map
        (fun a => a.2.1) = [⟨2, 0⟩] ∧
    (∀ g ∈ goalsSent (executeTrajectoryTrace self env log trajectory),
      g.goal_time_tolerance = ⟨1, 0⟩) ∧
    executeTrajectory { self with timeout_ := t } env log trajectory =
      executeTrajectory self env log trajectory := by
  refine ⟨?_, ?_, rfl⟩
  · rcases trace_shape self env log trajectory with ⟨_, h2⟩ | ⟨s, _, h2⟩ <;>
      rw [h2] <;> simp [failedTrace, sentTrace, connectionAttempts, Duration.fromSec]
  · rcases trace_shape self env log trajectory with ⟨_, h2⟩ | ⟨s, _, h2⟩ <;>
      rw [h2] <;> simp [failedTrace, sentTrace, goalsSent, goalFor, Duration.fromSec]

/-! ## Plan evaluation -/

theorem clampPointCount_natCast (m : Nat) (requested : Int) :
    clampPointCount (m : ℚ) requested = min requested (m : Int) := by
  unfold clampPointCount
  by_cases hlt : (m : ℚ) < (requested : ℚ)
  · have h2 : (m : Int) < requested := by exact_mod_cast hlt
    rw [if_pos hlt, Int.floor_natCast, min_eq_right h2.le]
  · have h2 : requested ≤ (m : Int) := by
      have : (requested : ℚ) ≤ (m : ℚ) := not_lt.mp hlt
      exact_mod_cast this
    rw [if_neg hlt, min_eq_left h2]

/-- C9: the configured maxima are 200 for the Cartesian count and 30 for the
    joint-space count, the values of `MAX_CART_PLAN_STEP` and `MAX_PLAN_STEP`; they
    differ, both are positive and the Cartesian one is the larger; a requested count is
    clamped to its own maximum, so that a count above the maximum comes out as the
    maximum and any other count is kept. -/
theorem max_plan_steps_distinct (req : CartesianRequest) :
    SIAMotionPlanner.init.max_cartesion_plan_steps_ = (MAX_CART_PLAN_STEP : ℚ) ∧
    SIAMotionPlanner.init.max_plan_steps_ = (MAX_PLAN_STEP : ℚ) ∧
    SIAMotionPlanner.init.max_cartesion_plan_steps_ = 200 ∧
    SIAMotionPlanner.init.max_plan_steps_ = 30 ∧
    SIAMotionPlanner.init.max_cartesion_plan_steps_ ≠ SIAMotionPlanner.init.max_plan_steps_ ∧
    0 < SIAMotionPlanner.init.max_plan_steps_ ∧
    0 < SIAMotionPlanner.init.max_cartesion_plan_steps_ ∧
    SIAMotionPlanner.init.max_plan_steps_ < SIAMotionPlanner.init.max_cartesion_plan_steps_ ∧
    clampedCartesianPoints SIAMotionPlanner.init req = min req.number_point 200 ∧
    clampedJointPoints SIAMotionPlanner.init req = min req.number_distance 30 ∧
    clampedCartesianPoints SIAMotionPlanner.init req ≤ 200 ∧
    clampedJointPoints SIAMotionPlanner.init req ≤ 30 ∧
    (200 < req.number_point → clampedCartesianPoints SIAMotionPlanner.init req = 200) ∧
    (req.number_point ≤ 200 →
      clampedCartesianPoints SIAMotionPlanner.init req = req.number_point) ∧
    (30 < req.number_distance → clampedJointPoints SIAMotionPlanner.init req = 30) ∧
    (req.number_distance ≤ 30 →
      clampedJointPoints SIAMotionPlanner.init req = req.number_distance) := by
  have hc : clampedCartesianPoints SIAMotionPlanner.init req = min req.number_point 200 := by
    unfold clampedCartesianPoints SIAMotionPlanner.init
    exact clampPointCount_natCast MAX_CART_PLAN_STEP req.number_point
  have hj : clampedJointPoints SIAMotionPlanner.init req = min req.number_distance 30 := by
    unfold clampedJointPoints SIAMotionPlanner.init
    exact clampPointCount_natCast MAX_PLAN_STEP req.number_distance
  refine ⟨rfl, rfl, ?_, ?_, ?_, ?_, ?_, ?_, hc, hj, ?_, ?_, ?_, ?_, ?_, ?_⟩
  · simp [SIAMotionPlanner.init, MAX_CART_PLAN_STEP]
  · simp [SIAMotionPlanner.init, MAX_PLAN_STEP]
  · simp [SIAMotionPlanner.init, MAX_CART_PLAN_STEP, MAX_PLAN_STEP]
  · simp [SIAMotionPlanner.init, MAX_PLAN_STEP]
  · simp [SIAMotionPlanner.init, MAX_CART_PLAN_STEP]
  · simp [SIAMotionPlanner.init, MAX_CART_PLAN_STEP, MAX_PLAN_STEP]
    norm_num
  · rw [hc]; exact min_le_right _ _
  · rw [hj]; exact min_le_right _ _
  · intro hgt; rw [hc]; exact min_eq_right hgt.le
  · intro hle; rw [hc]; exact min_eq_left hle
  · intro hgt; rw [hj]; exact min_eq_right hgt.le
  · intro hle; rw [hj]; exact min_eq_left hle

/-! ## The theorems at concrete inputs -/

/-- A goal that succeeds gives `true`; an aborted goal and an unreachable server give
    `false`. -/
theorem executeTrajectory_true_iff_succeeded_witness :
    (executeTrajectory samplePlanner (backendEnding SimpleClientGoalState.SUCCEEDED) []
      sampleTrajectory).1 = true ∧
    (executeTrajectory samplePlanner (backendEnding SimpleClientGoalState.ABORTED) []
      sampleTrajectory).1 = false ∧
    (executeTrajectory samplePlanner unreachableBackend [] sampleTrajectory).1 = false :=
  ⟨(executeTrajectory_true_iff_succeeded samplePlanner
      (backendEnding SimpleClientGoalState.SUCCEEDED) [] sampleTrajectory).1.mpr ⟨rfl, rfl⟩,
   (executeTrajectory_true_iff_succeeded samplePlanner
      (backendEnding SimpleClientGoalState.ABORTED) [] sampleTrajectory).2.2.2
      1 (goalFor sampleTrajectory) none none SimpleClientGoalState.ABORTED
      (by decide) (by decide),
   Bool.eq_false_iff.mpr fun hT =>
    absurd ((executeTrajectory_true_iff_succeeded samplePlanner unreachableBackend []
      sampleTrajectory).1.mp hT).1 (by decide)⟩

/-- The server is never reached: `false`, and nothing is sent. -/
theorem executeTrajectory_unreachable_sends_nothing_witness :
    (executeTrajectory samplePlanner unreachableBackend [] sampleTrajectory).1 = false ∧
    goalsSent (executeTrajectoryTrace samplePlanner unreachableBackend [] sampleTrajectory) = [] ∧
    ∀ c g x p s, Event.sendGoalAndWait c g x p s ∉
      executeTrajectoryTrace samplePlanner unreachableBackend [] sampleTrajectory :=
  executeTrajectory_unreachable_sends_nothing samplePlanner unreachableBackend []
    sampleTrajectory ⟨1, Duration.fromSec 2, by decide⟩

/-- A trajectory of two points, on a backend that aborts: one goal, holding both points
    in their order. -/
theorem executeTrajectory_sends_whole_trajectory_witness :
    sampleTrajectory.points = [samplePoint 1, samplePoint 2] ∧
    ((∃ g, goalsSent (executeTrajectoryTrace samplePlanner
        (backendEnding SimpleClientGoalState.ABORTED) [] sampleTrajectory) = [g] ∧
      g.trajectory = sampleTrajectory ∧ g.trajectory.points = sampleTrajectory.points) ∧
    (goalsSent (executeTrajectoryTrace samplePlanner
        (backendEnding SimpleClientGoalState.ABORTED) [] sampleTrajectory)).map
      FollowJointTrajectoryGoal.trajectory = [sampleTrajectory] ∧
    (goalsSent (executeTrajectoryTrace samplePlanner
        (backendEnding SimpleClientGoalState.ABORTED) [] sampleTrajectory)).map
      (fun g => g.trajectory.points) = [sampleTrajectory.points] ∧
    (∃ s, Event.sendGoalAndWait (newClientId [])
        { trajectory := sampleTrajectory, path_tolerance := [], goal_tolerance := [],
          goal_time_tolerance := ⟨1, 0⟩ } none none s ∈
      executeTrajectoryTrace samplePlanner (backendEnding SimpleClientGoalState.ABORTED) []
        sampleTrajectory)) :=
  ⟨rfl, executeTrajectory_sends_whole_trajectory samplePlanner
    (backendEnding SimpleClientGoalState.ABORTED) [] sampleTrajectory rfl⟩

/-- An aborted goal and a preempted goal: same value, same messages. -/
theorem executeTrajectory_failure_state_not_reported_witness :
    (executeTrajectory samplePlanner (backendEnding SimpleClientGoalState.ABORTED) []
      sampleTrajectory).1 = false ∧
    (executeTrajectory samplePlanner (backendEnding SimpleClientGoalState.PREEMPTED) []
      sampleTrajectory).1 = false ∧
    consoleOutput (executeTrajectoryTrace samplePlanner
        (backendEnding SimpleClientGoalState.ABORTED) [] sampleTrajectory) =
      consoleOutput (executeTrajectoryTrace samplePlanner
        (backendEnding SimpleClientGoalState.PREEMPTED) [] sampleTrajectory) :=
  executeTrajectory_failure_state_not_reported samplePlanner samplePlanner
    (backendEnding SimpleClientGoalState.ABORTED) (backendEnding SimpleClientGoalState.PREEMPTED)
    [] [] sampleTrajectory sampleTrajectory SimpleClientGoalState.ABORTED
    SimpleClientGoalState.PREEMPTED
    ⟨1, goalFor sampleTrajectory, none, none, by decide⟩
    ⟨1, goalFor sampleTrajectory, none, none, by decide⟩ (by decide) (by decide)

/-- An unreachable server and a lost goal: same value, different messages. -/
theorem executeTrajectory_failures_share_value_witness :
    (executeTrajectory samplePlanner unreachableBackend [] sampleTrajectory).1 = false ∧
    (executeTrajectory samplePlanner (backendEnding SimpleClientGoalState.LOST) []
      sampleTrajectory).1 = false ∧
    goalsSent (executeTrajectoryTrace samplePlanner unreachableBackend [] sampleTrajectory) = [] ∧
    (goalsSent (executeTrajectoryTrace samplePlanner (backendEnding SimpleClientGoalState.LOST)
      [] sampleTrajectory)).length = 1 ∧
    consoleOutput (executeTrajectoryTrace samplePlanner unreachableBackend [] sampleTrajectory) =
      [Event.rosError "Cannot connect to action server"] ∧
    consoleOutput (executeTrajectoryTrace samplePlanner (backendEnding SimpleClientGoalState.LOST)
      [] sampleTrajectory) = [Event.rosInfo "actionlib initialized successfully"] :=
  executeTrajectory_failures_share_value samplePlanner samplePlanner unreachableBackend
    (backendEnding SimpleClientGoalState.LOST) [] [] sampleTrajectory sampleTrajectory
    SimpleClientGoalState.LOST ⟨1, Duration.fromSec 2, by decide⟩
    ⟨1, goalFor sampleTrajectory, none, none, by decide⟩ (by decide)

/-- A request for 500 points of each kind: 200 Cartesian points, 30 joint-space points;
    a request for 20 of each kind is kept. -/
theorem max_plan_steps_distinct_witness :
    clampedCartesianPoints SIAMotionPlanner.init (requestCounts 500 500) = 200 ∧
    clampedJointPoints SIAMotionPlanner.init (requestCounts 500 500) = 30 ∧
    clampedCartesianPoints SIAMotionPlanner.init (requestCounts 20 20) = 20 ∧
    clampedJointPoints SIAMotionPlanner.init (requestCounts 20 20) = 20 :=
  ⟨(max_plan_steps_distinct (requestCounts 500 500)).2.2.2.2.2.2.2.2.2.2.2.2.1 (by decide),
   (max_plan_steps_distinct (requestCounts 500 500)).2.2.2.2.2.2.2.2.2.2.2.2.2.2.1 (by decide),
   (max_plan_steps_distinct (requestCounts 20 20)).2.2.2.2.2.2.2.2.2.2.2.2.2.1 (by decide),
   (max_plan_steps_distinct (requestCounts 20 20)).2.2.2.2.2.2.2.2.2.2.2.2.2.2.2 (by decide)⟩

end MotionPlanner
